import Mathlib

/-!
Verification of the spincycle job-runner against its specification.

The embedding covers the two source files of the repository:
  job-runner/runner/factory.go  (the runner factory)
  job-runner/api/api.go         (the four HTTP controllers)
The chain package (chain, Traverser, TraverserRepo) and the pluggable job
package are not part of the source tree; where a claim depends on them they
are modelled from the specification, and each such definition says so in
its doc comment.  Side effects (calls into the job, registry mutation,
spawned asynchronous work) are made observable through explicit event
traces, so that claims about what a function does and does not invoke
become statements about those traces.
-/

namespace Spincycle

/-- Error values that flow through the system.  Go errors are opaque values;
we keep just enough structure to distinguish the error classes the spec
names. -/
inductive Err where
  | unknownJobType (t : String)
  | deserializationErr (msg : String)
  | alreadyExists (id : String)
  | malformedChain
  | hostnameErr (msg : String)
  | other (msg : String)
deriving DecidableEq, Repr

/-- A job instance.  The job package is external to the repository; a job is
opaque to the engine, so we record only its type tag, display name and a
byte-like payload standing for its internal state. -/
structure Job where
  jobType : String
  jobName : String
  data : List Nat
deriving DecidableEq, Repr

/-- The Job Runner Wrapper returned by the factory: one job bound to the
owning request id (runner.NewJobRunner in the source). -/
structure JobRunner where
  job : Job
  requestId : Nat
deriving DecidableEq, Repr

/-- Observable side effects of factory.Make: the constructor lookup plus
blank construction, the single state-restoration call on the job, and a
job run (which Make must never emit). -/
inductive Event where
  | factoryMakeCall (jobType jobName : String)
  | deserializeCall (bytes : List Nat)
  | jobRunCall
deriving DecidableEq, Repr

/-- runnerFactory.Make from job-runner/runner/factory.go.  The job factory
(jf, the external job.Factory.Make) and the state restoration (des, the
external job.Deserialize method, returning the restored job) are
parameters, since the job package is a pluggable collaborator.  The Go
function returns the pair (Runner, error) with exactly one of the two
non-nil; we return that pair as Options, together with the trace of calls
it made into the job package. -/
def RunnerFactory.Make (jf : String → String → Except Err Job)
    (des : Job → List Nat → Except Err Job)
    (jobType jobName : String) (jobBytes : List Nat) (requestId : Nat) :
    (Option JobRunner × Option Err) × List Event :=
  match jf jobType jobName with
  | .error e => ((none, some e), [.factoryMakeCall jobType jobName])
  | .ok j =>
    match des j jobBytes with
    | .error e =>
        ((none, some e),
         [.factoryMakeCall jobType jobName, .deserializeCall jobBytes])
    | .ok j2 =>
        ((some { job := j2, requestId := requestId }, none),
         [.factoryMakeCall jobType jobName, .deserializeCall jobBytes])

/-- A concrete job factory used to witness the theorems: exactly one
registered job type. -/
def jf0 : String → String → Except Err Job := fun t n =>
  if t = "ping" then .ok { jobType := t, jobName := n, data := [] }
  else .error (.unknownJobType t)

/-- A concrete deserializer used to witness the theorems: rejects the
payload [9], restores any other payload into the job. -/
def des0 : Job → List Nat → Except Err Job := fun j bs =>
  if bs = [9] then .error (.deserializationErr "bad blob")
  else .ok { j with data := bs }

/-- Per-node and overall chain status.  The spec lists the five values
Pending, Running, Complete, Fail, Stopped for both. -/
inductive Status where
  | pending
  | running
  | complete
  | failed
  | stoppedSt
deriving DecidableEq, Repr

/-- A status is terminal when the traversal has drained to it. -/
def Status.isTerminal : Status → Bool
  | .complete => true
  | .failed => true
  | .stoppedSt => true
  | _ => false

/-- Modelled from the spec: the Traverser of the chain package is absent
from the source tree.  We keep the state a handler can observe: the overall
chain status, the cooperative stop flag, and the per-job status snapshot
that Status() returns. -/
structure Traverser where
  chainStatus : Status
  stopFlag : Bool
  jobStatuses : List (String × Status)
deriving DecidableEq, Repr

/-- Modelled from the spec: Traverser.Stop sets the stop flag and signals
in-flight wrappers, returning as soon as the signal is issued and without
waiting for the traversal loop to drain — so the chain status is unchanged
when it returns.  On an already-terminal Traverser it is a no-op.  The spec
gives it no failure mode, so the error component is always nil. -/
def Traverser.StopCall (t : Traverser) : Traverser × Option Err :=
  if t.chainStatus.isTerminal then (t, none)
  else ({ t with stopFlag := true }, none)

/-- Modelled from the spec: Traverser.Status returns an immutable snapshot
of the per-job statuses; it is non-blocking and has no failure mode. -/
def Traverser.StatusCall (t : Traverser) : Except Err (List (String × Status)) :=
  .ok t.jobStatuses

/-- Association-list lookup used for the registry (first binding wins). -/
def assocGet : List (String × Traverser) → String → Option Traverser
  | [], _ => none
  | (k, v) :: rest, id => if k = id then some v else assocGet rest id

/-- Modelled from the spec: the Traverser Registry (chain.TraverserRepo),
a keyed collection of active Traversers, one per request identifier. -/
structure TraverserRepo where
  entries : List (String × Traverser)
deriving DecidableEq, Repr

/-- Registry lookup: fails (returns none) when the key is absent. -/
def TraverserRepo.get (r : TraverserRepo) (id : String) : Option Traverser :=
  assocGet r.entries id

/-- Modelled from the spec: Add fails with an already-exists error when the
key is occupied, leaving the registry unchanged; otherwise it inserts. -/
def TraverserRepo.add (r : TraverserRepo) (id : String) (t : Traverser) :
    Except Err TraverserRepo :=
  match assocGet r.entries id with
  | some _ => .error (.alreadyExists id)
  | none => .ok ⟨(id, t) :: r.entries⟩

/-- Modelled from the spec: Remove is idempotent — it deletes the binding
if present and is a no-op otherwise. -/
def TraverserRepo.remove (r : TraverserRepo) (id : String) : TraverserRepo :=
  ⟨r.entries.filter (fun p => p.1 ≠ id)⟩

/-- The proto.JobChain payload the new-job-chain endpoint decodes: the
owning request identifier (a Go uint, so an absent JSON field reads as 0),
the job identifiers, and the dependency edges (predecessor, successor). -/
structure JobChain where
  requestId : Nat
  jobIds : List String
  edges : List (String × String)
deriving DecidableEq, Repr

/-- chain.NewChain as used by the handler: the call site in api.go binds a
single result, so construction is total and returns the wrapped payload. -/
structure Chain where
  jobChain : JobChain
deriving DecidableEq, Repr

/-- chain.NewChain, total per its call site in api.go. -/
def NewChain (jc : JobChain) : Chain := ⟨jc⟩

/-- Chain.RequestId, the owning request identifier accessor. -/
def Chain.RequestId (c : Chain) : Nat := c.jobChain.requestId

/-- Both endpoints of every edge must name a declared job. -/
def edgesResolve (jc : JobChain) : Bool :=
  jc.edges.all (fun e => jc.jobIds.contains e.1 && jc.jobIds.contains e.2)

/-- One round of Kahn elimination with explicit fuel: nodes without an
incoming edge are removed together with their outgoing edges; the graph is
acyclic exactly when every node is eventually removed. -/
def kahnGo : Nat → List String → List (String × String) → Bool
  | 0, nodes, _ => nodes.isEmpty
  | fuel + 1, nodes, edges =>
    if nodes.isEmpty then true
    else
      let srcs := nodes.filter (fun v => !(edges.any (fun e => e.2 == v)))
      if srcs.isEmpty then false
      else
        kahnGo fuel (nodes.filter (fun v => !(srcs.contains v)))
          (edges.filter (fun e => !(srcs.contains e.1)))

/-- Acyclicity of the dependency graph, decided by Kahn elimination. -/
def isAcyclic (nodes : List String) (edges : List (String × String)) : Bool :=
  kahnGo nodes.length nodes edges

/-- Modelled from the spec: chain validation — every predecessor/successor
pair must reference existing nodes, the graph must be acyclic, and the
request identifier must be present (nonzero, since a Go uint has no absent
value).  The spec places this validation in the chain package, which is
absent from the source tree; per the call sites in api.go it surfaces as
the error of chain.NewTraverser. -/
def JobChain.valid (jc : JobChain) : Bool :=
  jc.requestId != 0 && edgesResolve jc && isAcyclic jc.jobIds jc.edges

/-- Modelled from the spec: chain.NewTraverser validates the chain and
returns a fresh Traverser (all jobs Pending, stop flag clear) or the
validation error. -/
def NewTraverser (c : Chain) : Except Err Traverser :=
  if c.jobChain.valid then
    .ok { chainStatus := .pending, stopFlag := false,
          jobStatuses := c.jobChain.jobIds.map (fun j => (j, Status.pending)) }
  else .error .malformedChain

/-- The router error classes the controllers answer with
(router.ErrInternal, router.ErrBadRequest, router.ErrNotFound). -/
inductive ApiErrKind where
  | errInternal
  | errBadRequest
  | errNotFound
deriving DecidableEq, Repr

/-- The observable pieces of an HTTP response the claims talk about: the
error class written by ctx.APIError (if any), the Location header (if
set), and the body (if written). -/
structure Response where
  apiErr : Option ApiErrKind
  location : Option String
  body : Option String
deriving DecidableEq, Repr

/-- A response carrying only an API error. -/
def mkErrResp (k : ApiErrKind) : Response :=
  { apiErr := some k, location := none, body := none }

/-- An empty success response. -/
def okResp : Response :=
  { apiErr := none, location := none, body := none }

/-- Calls a handler makes into the registry and the Traverser, recorded so
that claims about what a handler does and does not invoke are statements
about this trace. -/
inductive ApiEvent where
  | traverserStopCall (id : String)
  | traverserStatusCall (id : String)
  | traverserRunCall (id : String)
  | repoRemoveCall (id : String)
  | repoAddCall (id : String)
deriving DecidableEq, Repr

/-- Asynchronous work a handler spawns: the start handler launches one
goroutine that runs the traverser and then removes it from the registry. -/
inductive AsyncTask where
  | runThenRemove (requestId : String)
deriving DecidableEq, Repr

/-- The call trace an asynchronous task performs when it executes: the
spawned goroutine of the start handler calls Run and, exactly when Run
returns, Remove. -/
def AsyncTask.taskEvents : AsyncTask → List ApiEvent
  | .runThenRemove id => [.traverserRunCall id, .repoRemoveCall id]

/-- The registry effect of an asynchronous task once it has fully run. -/
def AsyncTask.applyRepo (repo : TraverserRepo) : AsyncTask → TraverserRepo
  | .runThenRemove id => repo.remove id

/-- Everything a controller invocation produces: the registry afterwards,
the response, the synchronous call trace, and the spawned async work. -/
structure HandlerOut where
  repo : TraverserRepo
  resp : Response
  events : List ApiEvent
  spawned : List AsyncTask
deriving DecidableEq, Repr

/-- api.newJobChainHandler (POST /api/v1/job-chains): decode the body,
build the chain, build a traverser for it (rejecting invalid chains with a
bad-request error), and add the traverser to the registry (rejecting an
occupied request id with a bad-request error).  The decoded argument
carries the outcome of the JSON decode, whose failure answers with an
internal error. -/
def newJobChainHandler (repo : TraverserRepo) (decoded : Except Err JobChain) :
    HandlerOut :=
  match decoded with
  | .error _ =>
      { repo := repo, resp := mkErrResp .errInternal, events := [], spawned := [] }
  | .ok jobChain =>
    let c := NewChain jobChain
    let requestIdStr := toString c.RequestId
    match NewTraverser c with
    | .error _ =>
        { repo := repo, resp := mkErrResp .errBadRequest, events := [], spawned := [] }
    | .ok traverser =>
      match repo.add requestIdStr traverser with
      | .error _ =>
          { repo := repo, resp := mkErrResp .errBadRequest, events := [], spawned := [] }
      | .ok repo2 =>
          { repo := repo2, resp := okResp,
            events := [.repoAddCall requestIdStr], spawned := [] }

/-- chainLocation from api.go: the URL location of a job chain, the host
part taken from the hostname function with its error discarded. -/
def chainLocation (requestId : String) (hostname : Unit → String × Option Err) :
    String :=
  (hostname ()).1 ++ "/api/v1/" ++ "job-chains/" ++ requestId

/-- api.startJobChainHandler (PUT .../start): look up the traverser
(not-found error when absent), set the Location header, and spawn the
goroutine that runs the traverser and removes it from the registry when
Run returns.  The handler itself returns without waiting. -/
def startJobChainHandler (hostname : Unit → String × Option Err)
    (repo : TraverserRepo) (requestIdStr : String) : HandlerOut :=
  match repo.get requestIdStr with
  | none =>
      { repo := repo, resp := mkErrResp .errNotFound, events := [], spawned := [] }
  | some _ =>
      { repo := repo,
        resp := { apiErr := none,
                  location := some (chainLocation requestIdStr hostname),
                  body := none },
        events := [],
        spawned := [.runThenRemove requestIdStr] }

/-- api.stopJobChainHandler (PUT .../stop): look up the traverser
(not-found error when absent), call Stop on it (internal error if Stop
fails), then remove it from the registry. -/
def stopJobChainHandler (repo : TraverserRepo) (requestIdStr : String) :
    HandlerOut :=
  match repo.get requestIdStr with
  | none =>
      { repo := repo, resp := mkErrResp .errNotFound, events := [], spawned := [] }
  | some t =>
    match (Traverser.StopCall t).2 with
    | some _ =>
        { repo := repo, resp := mkErrResp .errInternal,
          events := [.traverserStopCall requestIdStr], spawned := [] }
    | none =>
        { repo := repo.remove requestIdStr, resp := okResp,
          events := [.traverserStopCall requestIdStr], spawned := [] }

/-- Plain rendering of a status snapshot standing in for the indented JSON
of marshal; its exact shape is irrelevant to every claim. -/
def marshalStatuses (l : List (String × Status)) : String :=
  l.foldl (fun acc p => acc ++ p.1 ++ ";") ""

/-- api.statusJobChainHandler (GET .../status): look up the traverser
(not-found error when absent), ask it for its status (internal error on
failure), and write the rendered snapshot to the body. -/
def statusJobChainHandler (repo : TraverserRepo) (requestIdStr : String) :
    HandlerOut :=
  match repo.get requestIdStr with
  | none =>
      { repo := repo, resp := mkErrResp .errNotFound, events := [], spawned := [] }
  | some t =>
    match Traverser.StatusCall t with
    | .error _ =>
        { repo := repo, resp := mkErrResp .errInternal,
          events := [.traverserStatusCall requestIdStr], spawned := [] }
    | .ok sts =>
        { repo := repo,
          resp := { apiErr := none, location := none,
                    body := some (marshalStatuses sts) },
          events := [.traverserStatusCall requestIdStr], spawned := [] }

/-- A concrete non-terminal traverser used in witnesses and
counterexamples: its chain is still Running. -/
def tRunning : Traverser :=
  { chainStatus := .running, stopFlag := false,
    jobStatuses := [("j1", Status.running)] }

/-- A concrete registry holding tRunning under request id 7. -/
def repo7 : TraverserRepo := ⟨[("7", tRunning)]⟩

/-- A concrete cyclic job chain, rejected by validation. -/
def cyclicChain : JobChain :=
  { requestId := 5, jobIds := ["a", "b"], edges := [("a", "b"), ("b", "a")] }

/-- A concrete well-formed job chain owned by request id 7. -/
def validChain7 : JobChain :=
  { requestId := 7, jobIds := ["a", "b"], edges := [("a", "b")] }

/-- A concrete hostname function whose lookup fails, standing for
os.Hostname returning an error. -/
def hnErr : Unit → String × Option Err :=
  fun _ => ("", some (.hostnameErr "lookup failed"))

/-- A concrete hostname function whose lookup succeeds. -/
def hnOk : Unit → String × Option Err :=
  fun _ => ("myhost", none)

end Spincycle

namespace Spincycle

/-- C2: Make(jobType, jobName, jobBytes, requestId) returns an error if and
only if the job-type lookup fails (the unknown-job-type error from the
factory) or the restored state is rejected (the deserialization error from
the job); in all other cases it returns a runner and no error. -/
theorem make_error_iff (jf : String → String → Except Err Job)
    (des : Job → List Nat → Except Err Job)
    (jobType jobName : String) (jobBytes : List Nat) (requestId : Nat) :
    (∀ e, (RunnerFactory.Make jf des jobType jobName jobBytes requestId).1.2 = some e ↔
      (jf jobType jobName = .error e ∨
        ∃ j, jf jobType jobName = .ok j ∧ des j jobBytes = .error e)) ∧
    ((RunnerFactory.Make jf des jobType jobName jobBytes requestId).1.2 = none →
      ∃ r, (RunnerFactory.Make jf des jobType jobName jobBytes requestId).1.1 = some r) := by
  cases hjf : jf jobType jobName with
  | error e0 =>
    refine ⟨fun e => ?_, ?_⟩ <;> simp [RunnerFactory.Make, hjf, eq_comm]
  | ok j0 =>
    cases hdes : des j0 jobBytes with
    | error e0 =>
      refine ⟨fun e => ?_, ?_⟩ <;> simp [RunnerFactory.Make, hjf, hdes, eq_comm]
    | ok j2 =>
      refine ⟨fun e => ?_, ?_⟩ <;> simp [RunnerFactory.Make, hjf, hdes]

/-- Witness for C2 at concrete inputs: an unregistered job type yields
exactly the unknown-job-type error. -/
theorem make_error_iff_witness :
    (RunnerFactory.Make jf0 des0 "shutdown-host" "j1" [1, 2] 7).1.2 =
      some (Err.unknownJobType "shutdown-host") :=
  ((make_error_iff jf0 des0 "shutdown-host" "j1" [1, 2] 7).1
      (Err.unknownJobType "shutdown-host")).2 (Or.inl rfl)

/-- C3: a successful Make returns a wrapper bound to the given requestId
wrapping the job constructed for jobType and restored from jobBytes, and
its trace is exactly the construction call followed by the single
state-restoration call — in particular it never runs the job. -/
theorem make_success_shape (jf : String → String → Except Err Job)
    (des : Job → List Nat → Except Err Job)
    (jobType jobName : String) (jobBytes : List Nat) (requestId : Nat)
    (j j2 : Job)
    (hjf : jf jobType jobName = .ok j) (hdes : des j jobBytes = .ok j2) :
    (RunnerFactory.Make jf des jobType jobName jobBytes requestId).1 =
      (some { job := j2, requestId := requestId }, none) ∧
    (RunnerFactory.Make jf des jobType jobName jobBytes requestId).2 =
      [.factoryMakeCall jobType jobName, .deserializeCall jobBytes] ∧
    Event.jobRunCall ∉ (RunnerFactory.Make jf des jobType jobName jobBytes requestId).2 ∧
    ((RunnerFactory.Make jf des jobType jobName jobBytes requestId).2.count
        (Event.deserializeCall jobBytes)) = 1 := by
  refine ⟨?_, ?_, ?_, ?_⟩ <;> simp [RunnerFactory.Make, hjf, hdes, List.count_cons]

/-- Witness for C3: the registered type with an accepted payload produces
the wrapper for the restored job and the two-call trace. -/
theorem make_success_shape_witness :
    (RunnerFactory.Make jf0 des0 "ping" "j1" [1, 2] 7).1 =
      (some { job := { jobType := "ping", jobName := "j1", data := [1, 2] },
              requestId := 7 }, none) ∧
    (RunnerFactory.Make jf0 des0 "ping" "j1" [1, 2] 7).2 =
      [.factoryMakeCall "ping" "j1", .deserializeCall [1, 2]] :=
  ⟨(make_success_shape jf0 des0 "ping" "j1" [1, 2] 7
      { jobType := "ping", jobName := "j1", data := [] }
      { jobType := "ping", jobName := "j1", data := [1, 2] }
      rfl rfl).1,
   (make_success_shape jf0 des0 "ping" "j1" [1, 2] 7
      { jobType := "ping", jobName := "j1", data := [] }
      { jobType := "ping", jobName := "j1", data := [1, 2] }
      rfl rfl).2.1⟩

/-- C9: Make is atomic on error — a failed job-type lookup returns that
error with no state-restoration call made; on every error path the runner
is nil; and a nil error implies a non-nil runner. -/
theorem make_atomic_on_error (jf : String → String → Except Err Job)
    (des : Job → List Nat → Except Err Job)
    (jobType jobName : String) (jobBytes : List Nat) (requestId : Nat) :
    (∀ e, jf jobType jobName = .error e →
      (RunnerFactory.Make jf des jobType jobName jobBytes requestId).1 = (none, some e) ∧
      ∀ bs, Event.deserializeCall bs ∉
        (RunnerFactory.Make jf des jobType jobName jobBytes requestId).2) ∧
    ((RunnerFactory.Make jf des jobType jobName jobBytes requestId).1.2 ≠ none →
      (RunnerFactory.Make jf des jobType jobName jobBytes requestId).1.1 = none) ∧
    ((RunnerFactory.Make jf des jobType jobName jobBytes requestId).1.2 = none →
      (RunnerFactory.Make jf des jobType jobName jobBytes requestId).1.1 ≠ none) := by
  cases hjf : jf jobType jobName with
  | error e0 =>
    refine ⟨fun e he => ?_, ?_, ?_⟩
    · obtain rfl : e0 = e := by simpa using he
      exact ⟨by simp [RunnerFactory.Make, hjf], fun bs => by simp [RunnerFactory.Make, hjf]⟩
    · simp [RunnerFactory.Make, hjf]
    · simp [RunnerFactory.Make, hjf]
  | ok j0 =>
    refine ⟨fun e he => absurd he (by simp), ?_, ?_⟩ <;>
      cases hdes : des j0 jobBytes <;> simp [RunnerFactory.Make, hjf, hdes]

/-- Witness for C9: on the unknown type the result is (nil runner, the
lookup error) and the trace contains no state-restoration call. -/
theorem make_atomic_on_error_witness :
    (RunnerFactory.Make jf0 des0 "shutdown-host" "j1" [1, 2] 7).1 =
      (none, some (Err.unknownJobType "shutdown-host")) ∧
    Event.deserializeCall [1, 2] ∉
      (RunnerFactory.Make jf0 des0 "shutdown-host" "j1" [1, 2] 7).2 :=
  ⟨((make_atomic_on_error jf0 des0 "shutdown-host" "j1" [1, 2] 7).1
      (Err.unknownJobType "shutdown-host") rfl).1,
   ((make_atomic_on_error jf0 des0 "shutdown-host" "j1" [1, 2] 7).1
      (Err.unknownJobType "shutdown-host") rfl).2 [1, 2]⟩

/-- Removing a key from the registry removes every binding for it. -/
theorem assocGet_filter_ne (l : List (String × Traverser)) (id : String) :
    assocGet (l.filter (fun p => p.1 ≠ id)) id = none := by
  induction l with
  | nil => rfl
  | cons p rest ih =>
    by_cases h : p.1 = id
    · simpa [List.filter_cons, h] using ih
    · simpa [List.filter_cons, h, assocGet] using ih

/-- After Remove, Get no longer finds the key. -/
theorem get_remove_self (r : TraverserRepo) (id : String) :
    (r.remove id).get id = none := by
  obtain ⟨l⟩ := r
  simpa [TraverserRepo.remove, TraverserRepo.get] using assocGet_filter_ne l id

/-- C1 counterexample: a stop request for a request id with no Traverser in
the registry answers with a not-found API error, so it does return an
error to the caller, contrary to the claim. -/
theorem stop_absent_returns_error_cex :
    (TraverserRepo.mk []).get "1" = none ∧
    (stopJobChainHandler ⟨[]⟩ "1").resp.apiErr = some ApiErrKind.errNotFound := by
  exact ⟨rfl, rfl⟩

/-- C1 amended: for every stop request whose request id has no Traverser in
the registry, the stop handler answers with a not-found error and performs
no other action — the registry is unchanged, no Stop is invoked and
nothing is spawned. -/
theorem stop_absent_not_found_noop (repo : TraverserRepo) (id : String)
    (h : repo.get id = none) :
    (stopJobChainHandler repo id).resp = mkErrResp .errNotFound ∧
    (stopJobChainHandler repo id).repo = repo ∧
    (stopJobChainHandler repo id).events = [] ∧
    (stopJobChainHandler repo id).spawned = [] := by
  simp [stopJobChainHandler, h]

/-- Witness for the amended C1 at the empty registry. -/
theorem stop_absent_not_found_noop_witness :
    (stopJobChainHandler ⟨[]⟩ "1").resp = mkErrResp .errNotFound ∧
    (stopJobChainHandler ⟨[]⟩ "1").repo = ⟨[]⟩ ∧
    (stopJobChainHandler ⟨[]⟩ "1").events = [] ∧
    (stopJobChainHandler ⟨[]⟩ "1").spawned = [] :=
  stop_absent_not_found_noop ⟨[]⟩ "1" rfl

/-- C4: a malformed chain specification (cycle, dangling reference or
missing request id, i.e. one rejected by validation) is answered with a
bad-request error by the new-job-chain handler, and no Traverser is added
to the registry: the registry is unchanged and the trace holds no Add. -/
theorem new_chain_invalid_rejected (repo : TraverserRepo) (jc : JobChain)
    (h : jc.valid = false) :
    (newJobChainHandler repo (.ok jc)).resp = mkErrResp .errBadRequest ∧
    (newJobChainHandler repo (.ok jc)).repo = repo ∧
    (newJobChainHandler repo (.ok jc)).events = [] := by
  simp [newJobChainHandler, NewTraverser, NewChain, h]

/-- Witness for C4 at a concrete cyclic chain. -/
theorem new_chain_invalid_rejected_witness :
    (newJobChainHandler ⟨[]⟩ (.ok cyclicChain)).resp = mkErrResp .errBadRequest ∧
    (newJobChainHandler ⟨[]⟩ (.ok cyclicChain)).repo = ⟨[]⟩ ∧
    (newJobChainHandler ⟨[]⟩ (.ok cyclicChain)).events = [] :=
  new_chain_invalid_rejected ⟨[]⟩ cyclicChain (by decide)

/-- C5: posting a job chain whose request id already has a registered
Traverser is answered with a bad-request error, the registry is unchanged
and the existing Traverser for that id stays in place. -/
theorem new_chain_duplicate_rejected (repo : TraverserRepo) (jc : JobChain)
    (t : Traverser) (hv : jc.valid = true)
    (h : repo.get (toString jc.requestId) = some t) :
    (newJobChainHandler repo (.ok jc)).resp = mkErrResp .errBadRequest ∧
    (newJobChainHandler repo (.ok jc)).repo = repo ∧
    (newJobChainHandler repo (.ok jc)).repo.get (toString jc.requestId) = some t := by
  have hadd : repo.add (toString jc.requestId)
      { chainStatus := .pending, stopFlag := false,
        jobStatuses := jc.jobIds.map (fun j => (j, Status.pending)) } =
      .error (.alreadyExists (toString jc.requestId)) := by
    simp only [TraverserRepo.add]
    rw [show assocGet repo.entries (toString jc.requestId) = some t from h]
  refine ⟨?_, ?_, ?_⟩ <;>
    simp [newJobChainHandler, NewTraverser, NewChain, Chain.RequestId, hv, hadd, h]

/-- Witness for C5: request id 7 is already registered. -/
theorem new_chain_duplicate_rejected_witness :
    (newJobChainHandler repo7 (.ok validChain7)).resp = mkErrResp .errBadRequest ∧
    (newJobChainHandler repo7 (.ok validChain7)).repo = repo7 ∧
    (newJobChainHandler repo7 (.ok validChain7)).repo.get
      (toString validChain7.requestId) = some tRunning :=
  new_chain_duplicate_rejected repo7 validChain7 tRunning (by decide) (by decide)

/-- C6: a status query whose request id has no Traverser in the registry is
answered with a not-found error and nothing else happens — no Status call,
no registry change, no body, nothing spawned. -/
theorem status_absent_not_found (repo : TraverserRepo) (id : String)
    (h : repo.get id = none) :
    (statusJobChainHandler repo id).resp = mkErrResp .errNotFound ∧
    (statusJobChainHandler repo id).repo = repo ∧
    (statusJobChainHandler repo id).events = [] ∧
    (statusJobChainHandler repo id).spawned = [] := by
  simp [statusJobChainHandler, h]

/-- Witness for C6 at the empty registry. -/
theorem status_absent_not_found_witness :
    (statusJobChainHandler ⟨[]⟩ "1").resp = mkErrResp .errNotFound ∧
    (statusJobChainHandler ⟨[]⟩ "1").repo = ⟨[]⟩ ∧
    (statusJobChainHandler ⟨[]⟩ "1").events = [] ∧
    (statusJobChainHandler ⟨[]⟩ "1").spawned = [] :=
  status_absent_not_found ⟨[]⟩ "1" rfl

/-- C7: the start handler does not run the traverser synchronously — its
own trace is empty and the registry is untouched when it returns — and it
spawns exactly one task whose trace is the Run call followed immediately
by the registry Remove, so the Traverser is removed exactly when Run
returns. -/
theorem start_spawns_run_then_remove (hostname : Unit → String × Option Err)
    (repo : TraverserRepo) (id : String) (t : Traverser)
    (h : repo.get id = some t) :
    (startJobChainHandler hostname repo id).events = [] ∧
    (startJobChainHandler hostname repo id).repo = repo ∧
    (startJobChainHandler hostname repo id).spawned = [.runThenRemove id] ∧
    AsyncTask.taskEvents (.runThenRemove id) =
      [.traverserRunCall id, .repoRemoveCall id] ∧
    AsyncTask.applyRepo repo (.runThenRemove id) = repo.remove id := by
  refine ⟨?_, ?_, ?_, rfl, rfl⟩ <;> simp [startJobChainHandler, h]

/-- Witness for C7 at the concrete registry holding request id 7. -/
theorem start_spawns_run_then_remove_witness :
    (startJobChainHandler hnOk repo7 "7").events = [] ∧
    (startJobChainHandler hnOk repo7 "7").repo = repo7 ∧
    (startJobChainHandler hnOk repo7 "7").spawned = [.runThenRemove "7"] ∧
    AsyncTask.taskEvents (.runThenRemove "7") =
      [.traverserRunCall "7", .repoRemoveCall "7"] ∧
    AsyncTask.applyRepo repo7 (.runThenRemove "7") = repo7.remove "7" :=
  start_spawns_run_then_remove hnOk repo7 "7" tRunning (by decide)

/-- C8 counterexample: a stop request removes a Traverser whose chain is
still Running — Stop returns promptly without draining, the chain status
is still non-terminal, yet the handler has already removed the Traverser
from the registry. -/
theorem stop_removes_before_terminal_cex :
    repo7.get "7" = some tRunning ∧
    tRunning.chainStatus.isTerminal = false ∧
    (Traverser.StopCall tRunning).1.chainStatus.isTerminal = false ∧
    (stopJobChainHandler repo7 "7").repo.get "7" = none := by
  decide

/-- C8 amended: the start path removes the Traverser exactly when Run
returns, but a stop request whose Stop call returns without error removes
the Traverser from the registry immediately, regardless of whether the
chain has drained to a terminal status. -/
theorem stop_success_removes_immediately (repo : TraverserRepo) (id : String)
    (t : Traverser) (h : repo.get id = some t)
    (hs : (Traverser.StopCall t).2 = none) :
    (stopJobChainHandler repo id).repo = repo.remove id ∧
    (stopJobChainHandler repo id).repo.get id = none := by
  have hout : (stopJobChainHandler repo id).repo = repo.remove id := by
    simp [stopJobChainHandler, h, hs]
  exact ⟨hout, hout ▸ get_remove_self repo id⟩

/-- Witness for the amended C8: the running traverser under id 7 is gone
from the registry right after the stop request. -/
theorem stop_success_removes_immediately_witness :
    (stopJobChainHandler repo7 "7").repo = repo7.remove "7" ∧
    (stopJobChainHandler repo7 "7").repo.get "7" = none :=
  stop_success_removes_immediately repo7 "7" tRunning (by decide) (by decide)

/-- C10: chainLocation is total and ignores a hostname failure — for every
hostname function it returns host-part ++ "/api/v1/" ++ "job-chains/" ++
requestId — and the start handler sets that value as the Location header
and reports no error even when the hostname lookup failed. -/
theorem chainLocation_concat_and_silent (hostname : Unit → String × Option Err)
    (rid : String) :
    (chainLocation rid hostname =
      (hostname ()).1 ++ "/api/v1/" ++ "job-chains/" ++ rid) ∧
    (∀ repo t e, repo.get rid = some t → (hostname ()).2 = some e →
      (startJobChainHandler hostname repo rid).resp.location =
        some ((hostname ()).1 ++ "/api/v1/" ++ "job-chains/" ++ rid) ∧
      (startJobChainHandler hostname repo rid).resp.apiErr = none) := by
  refine ⟨rfl, fun repo t e h _ => ?_⟩
  simp [startJobChainHandler, h, chainLocation]

/-- Witness for C10 with a failing hostname lookup: the Location header is
set from the empty host and no error is reported. -/
theorem chainLocation_concat_and_silent_witness :
    (startJobChainHandler hnErr repo7 "7").resp.location =
      some ((hnErr ()).1 ++ "/api/v1/" ++ "job-chains/" ++ "7") ∧
    (startJobChainHandler hnErr repo7 "7").resp.apiErr = none :=
  (chainLocation_concat_and_silent hnErr "7").2 repo7 tRunning
    (Err.hostnameErr "lookup failed") (by decide) rfl

end Spincycle
